import Mathlib

/-!
Verification development for the hands_stacking repository (JARVIS AR).

The definitions below are a shallow embedding of the JavaScript sources
`src/js/gestures.js`, `src/js/earth.js` and `src/js/main.js`.  JavaScript
numbers (IEEE doubles) are modelled as exact rationals where the code only
performs field operations, and as real numbers where `Math.sqrt` appears.
Module-level mutable state (the hand-history buffers, the dual-Earth
lifecycle flags, the cooldown counter) is threaded explicitly through the
corresponding step functions.
-/

namespace HandsStacking

open Classical

/-- A normalized landmark point `{x, y, z}` as produced by the hand tracker
(`gestures.js` works with these plain objects; `z` is always present for
hand landmarks, matching the `p.z || 0` fallback in the source). -/
structure Point where
  x : ℚ
  y : ℚ
  z : ℚ
deriving DecidableEq

/-- A hand landmark set: exactly 21 points, indices fixed by anatomical
meaning.  The source guards `!landmarks || landmarks.length < 21`; absence
or malformedness is modelled as `Option.none` at the use sites. -/
abbrev Landmarks : Type := Fin 21 → Point

/-- distance3D from gestures.js: Euclidean 3D distance (`Math.sqrt` forces
the result into ℝ). -/
noncomputable def distance3D (p1 p2 : Point) : ℝ :=
  Real.sqrt (((p1.x - p2.x) ^ 2 + (p1.y - p2.y) ^ 2 + (p1.z - p2.z) ^ 2 : ℚ))

/-- distance2D from gestures.js. -/
noncomputable def distance2D (p1 p2 : Point) : ℝ :=
  Real.sqrt (((p1.x - p2.x) ^ 2 + (p1.y - p2.y) ^ 2 : ℚ))

/-- getPalmCenter from gestures.js: mean of wrist (0) and the four finger
bases (5, 9, 13, 17). -/
def getPalmCenter (lm : Landmarks) : Point :=
  { x := ((lm 0).x + (lm 5).x + (lm 9).x + (lm 13).x + (lm 17).x) / 5
    y := ((lm 0).y + (lm 5).y + (lm 9).y + (lm 13).y + (lm 17).y) / 5
    z := ((lm 0).z + (lm 5).z + (lm 9).z + (lm 13).z + (lm 17).z) / 5 }

/-- Result record of detectPinch. -/
structure PinchResult where
  isPinching : Prop
  distance : ℝ

/-- detectPinch from gestures.js: thumb tip (4) to index tip (8) 3D
distance, pinching iff it is below the threshold 0.06. -/
noncomputable def detectPinch : Option Landmarks → PinchResult
  | none => { isPinching := False, distance := 1 }
  | some lm =>
      { isPinching := distance3D (lm 4) (lm 8) < 0.06
        distance := distance3D (lm 4) (lm 8) }

/-- One entry of the hand-history buffer: the palm sample pushed by
detectWave (`{x, y, time}`, time in milliseconds). -/
structure Sample where
  x : ℚ
  y : ℚ
  time : ℚ
deriving DecidableEq, Inhabited

/-- The `while (history.length > HISTORY_LENGTH) history.shift()` loop of
detectWave: drop oldest entries until at most 5 remain. -/
def trimHistory (l : List Sample) : List Sample :=
  l.drop (l.length - 5)

/-- Math.sign on rationals. -/
def qsign (x : ℚ) : ℚ :=
  if x > 0 then 1 else if x < 0 then -1 else 0

/-- Result record of detectWave. -/
structure WaveResult where
  isWaving : Bool
  velocity : ℚ
  direction : ℚ
deriving DecidableEq

/-- detectWave from gestures.js, with the per-side module-level history
buffer threaded explicitly and `Date.now()` passed in as `now` (ms).
Returns the wave result together with the mutated buffer. -/
def detectWave (lm : Option Landmarks) (history : List Sample) (now : ℚ) :
    WaveResult × List Sample :=
  match lm with
  | none => ({ isWaving := false, velocity := 0, direction := 0 }, history)
  | some l =>
      let palmCenter := getPalmCenter l
      let h := trimHistory (history ++ [⟨palmCenter.x, palmCenter.y, now⟩])
      if h.length < 2 then
        ({ isWaving := false, velocity := 0, direction := 0 }, h)
      else
        let oldest := h.headI
        let newest := h.getLastI
        let timeDelta := (newest.time - oldest.time) / 1000
        if timeDelta < 0.01 then
          ({ isWaving := false, velocity := 0, direction := 0 }, h)
        else
          let xVelocity := (newest.x - oldest.x) / timeDelta
          ({ isWaving := |xVelocity| > 0.02
             velocity := |xVelocity|
             direction := qsign xVelocity }, h)

/-- The buffer effect of one detectWave call in isolation: push the palm
sample, then evict oldest entries past capacity 5.  Absent hands leave the
buffer untouched. -/
def recordSample (lm : Option Landmarks) (history : List Sample) (now : ℚ) :
    List Sample :=
  match lm with
  | none => history
  | some l =>
      let palmCenter := getPalmCenter l
      trimHistory (history ++ [⟨palmCenter.x, palmCenter.y, now⟩])

/-- isSameLocation from gestures.js: both palms within 2D distance 0.12. -/
noncomputable def isSameLocation : Option Landmarks → Option Landmarks → Prop
  | some l, some r =>
      distance2D (getPalmCenter l) (getPalmCenter r) < 0.12
  | _, _ => False

/-- getHandsDistance from gestures.js: palm-center 2D distance, or 0 when
either hand is absent. -/
noncomputable def getHandsDistance : Option Landmarks → Option Landmarks → ℝ
  | some l, some r => distance2D (getPalmCenter l) (getPalmCenter r)
  | _, _ => 0

/-- Result record of detectSpread. -/
structure SpreadResult where
  isSpreading : Prop
  delta : ℝ
  currentDistance : ℝ

/-- detectSpread from gestures.js.  `previousDistance === null` is the
`none` case. -/
noncomputable def detectSpread (l r : Option Landmarks)
    (previousDistance : Option ℝ) : SpreadResult :=
  let currentDistance := getHandsDistance l r
  match l, r, previousDistance with
  | some _, some _, some prev =>
      { isSpreading := currentDistance - prev > 0.02 ∧ currentDistance > 0.3
        delta := currentDistance - prev
        currentDistance := currentDistance }
  | _, _, _ =>
      { isSpreading := False, delta := 0, currentDistance := currentDistance }

/-- Result record of detectConverge. -/
structure ConvergeResult where
  isConverging : Prop
  delta : ℝ
  currentDistance : ℝ

/-- detectConverge from gestures.js. -/
noncomputable def detectConverge (l r : Option Landmarks)
    (previousDistance : Option ℝ) : ConvergeResult :=
  let currentDistance := getHandsDistance l r
  match l, r, previousDistance with
  | some _, some _, some prev =>
      { isConverging := prev - currentDistance > 0.02 ∧ currentDistance < 0.15
        delta := prev - currentDistance
        currentDistance := currentDistance }
  | _, _, _ =>
      { isConverging := False, delta := 0, currentDistance := currentDistance }

/-- The four finger checks of isGrasping: fingertip index vs MCP base
index, for index, middle, ring and pinky. -/
def graspChecks : List (Fin 21 × Fin 21) := [(8, 5), (12, 9), (16, 13), (20, 17)]

/-- Curled-finger count of isGrasping: a finger counts as curled when the
2D tip-to-wrist distance is below 1.2 times the base-to-wrist distance. -/
noncomputable def curledCount (lm : Landmarks) : ℕ :=
  graspChecks.countP fun c =>
    decide (distance2D (lm c.1) (lm 0) < distance2D (lm c.2) (lm 0) * 1.2)

/-- isGrasping from gestures.js: at least 3 of 4 fingers curled. -/
noncomputable def isGrasping : Option Landmarks → Prop
  | none => False
  | some lm => 3 ≤ curledCount lm

/-- The four finger checks of isOpenHand: fingertip vs PIP joint. -/
def openChecks : List (Fin 21 × Fin 21) := [(8, 6), (12, 10), (16, 14), (20, 18)]

/-- Extended-finger count of isOpenHand: a finger counts as extended when
the tip-to-wrist distance exceeds 1.1 times the PIP-to-wrist distance. -/
noncomputable def extendedCount (lm : Landmarks) : ℕ :=
  openChecks.countP fun c =>
    decide (distance2D (lm c.1) (lm 0) > distance2D (lm c.2) (lm 0) * 1.1)

/-- isOpenHand from gestures.js: at least 3 of 4 fingers extended. -/
noncomputable def isOpenHand : Option Landmarks → Prop
  | none => False
  | some lm => 3 ≤ extendedCount lm

/-- detectGrasp from gestures.js: both hands present, both individually
grasping, and palms at the same location. -/
noncomputable def detectGrasp : Option Landmarks → Option Landmarks → Prop
  | some l, some r =>
      (isGrasping (some l) ∧ isGrasping (some r)) ∧
        isSameLocation (some l) (some r)
  | _, _ => False

/-- Per-hand slice of the gesture state returned by getGestureState.
The source field named `open` is rendered `isOpen` (`open` is a Lean
keyword). -/
structure HandState where
  detected : Bool
  pinch : PinchResult
  wave : WaveResult
  grasping : Prop
  isOpen : Prop

/-- Pair-level slice of the gesture state. -/
structure PairState where
  detected : Bool
  sameLocation : Prop
  spreading : Prop
  converging : Prop
  grasping : Prop

/-- The full per-frame gesture state produced by getGestureState. -/
structure GestureState where
  left : HandState
  right : HandState
  bothHands : PairState
  handsDistance : ℝ
  spreadDelta : ℝ
  convergeDelta : ℝ

/-- The two module-level hand-history buffers of gestures.js. -/
structure Buffers where
  left : List Sample
  right : List Sample
deriving DecidableEq

/-- getGestureState from gestures.js.  The module-level history buffers are
threaded explicitly and `Date.now()` enters as `now`.  The previous gesture
state is only read at its `handsDistance` field; `previousHandsDistance`
is `none` when the field is absent (`previousState = {}` on the first
frame).  The source coerces with `previousState.handsDistance || null`, so
a stored distance of exactly 0 (a falsy number) also becomes null: this is
the `if d = 0` branch below. -/
noncomputable def getGestureState (l r : Option Landmarks)
    (previousHandsDistance : Option ℝ) (buf : Buffers) (now : ℚ) :
    GestureState × Buffers :=
  let leftPinch := detectPinch l
  let rightPinch := detectPinch r
  let leftWave := detectWave l buf.left now
  let rightWave := detectWave r buf.right now
  let prevDist : Option ℝ :=
    match previousHandsDistance with
    | none => none
    | some d => if d = 0 then none else some d
  let spread := detectSpread l r prevDist
  let converge := detectConverge l r prevDist
  let grasp := detectGrasp l r
  let sameLocation := isSameLocation l r
  let handsDistance := getHandsDistance l r
  ({ left :=
      { detected := l.isSome
        pinch := leftPinch
        wave := leftWave.1
        grasping := isGrasping l
        isOpen := isOpenHand l }
     right :=
      { detected := r.isSome
        pinch := rightPinch
        wave := rightWave.1
        grasping := isGrasping r
        isOpen := isOpenHand r }
     bothHands :=
      { detected := l.isSome && r.isSome
        sameLocation := sameLocation
        spreading := spread.isSpreading
        converging := converge.isConverging
        grasping := grasp }
     handsDistance := handsDistance
     spreadDelta := spread.delta
     convergeDelta := converge.delta },
   { left := leftWave.2, right := rightWave.2 })

/-- Transform data of one Earth group that the dual-Earth lifecycle of
earth.js reads and writes: horizontal position and uniform scale. -/
structure Obj where
  posX : ℚ
  scale : ℚ
deriving DecidableEq

/-- The module-level dual-Earth lifecycle state of earth.js: the main
Earth group (existence, visibility, scale), the two secondary Earths
(`leftEarth`/`rightEarth`, null when absent), and the `isDualMode` /
`isMerging` flags. -/
structure World where
  mainExists : Bool
  mainVisible : Bool
  mainScale : ℚ
  leftE : Option Obj
  rightE : Option Obj
  isDualMode : Bool
  isMerging : Bool
deriving DecidableEq

/-- The lifecycle mode enum reported by getEarthMode. -/
inductive Mode where
  | SINGLE
  | DUAL
  | MERGING
deriving DecidableEq

/-- getEarthMode from earth.js: MERGING wins over DUAL wins over SINGLE. -/
def getEarthMode (w : World) : Mode :=
  if w.isMerging then Mode.MERGING
  else if w.isDualMode then Mode.DUAL
  else Mode.SINGLE

/-- spawnDualEarths from earth.js: no-op while already in dual mode;
otherwise hide the main Earth and create the two secondary Earths at
x = ∓1.2 with scale 0.7. -/
def spawnDualEarths (w : World) : World :=
  if w.isDualMode then w
  else
    { w with
      isDualMode := true
      mainVisible := false
      leftE := some { posX := -1.2, scale := 0.7 }
      rightE := some { posX := 1.2, scale := 0.7 } }

/-- The entry guard and flag flip of mergeEarths in earth.js: a no-op
unless currently in dual mode and not already merging; otherwise set
`isMerging` (the animation itself is `mergeAnimAt`). -/
def mergeEarthsStart (w : World) : World :=
  if !w.isDualMode || w.isMerging then w
  else { w with isMerging := true }

/-- One tick of the mergeEarths animation closure of earth.js, evaluated
at `elapsed` milliseconds since the merge started: ease-out-cubic
interpolation of the secondary Earths toward the centre, and on
`progress = 1` removal of both secondaries, restoration of the main
Earth's visibility and scale, and the return to single mode. -/
def mergeAnimAt (elapsed : ℚ) (w : World) : World :=
  let progress := min (elapsed / 1000) 1
  let eased := 1 - (1 - progress) ^ 3
  let w1 :=
    match w.leftE, w.rightE with
    | some _, some _ =>
        let scale := 0.7 + 0.3 * eased
        { w with
          leftE := some { posX := -1.2 * (1 - eased)
                          scale := scale * (1 - progress * 0.5) }
          rightE := some { posX := 1.2 * (1 - eased)
                           scale := scale * (1 - progress * 0.5) } }
    | _, _ => w
  if progress < 1 then w1
  else
    { w1 with
      leftE := none
      rightE := none
      mainVisible := if w1.mainExists then true else w1.mainVisible
      mainScale := if w1.mainExists then 1 else w1.mainScale
      isDualMode := false
      isMerging := false }

/-- The spawn evaluation of processGestures in main.js: when both hands
are detected while not in dual mode and the cooldown has expired, spawn
the dual Earths and reset the cooldown to 90 frames. -/
def spawnEval (w : World) (cooldown : ℤ) (bothDetected : Bool) :
    World × ℤ :=
  if bothDetected && !w.isDualMode then
    if cooldown ≤ 0 then (spawnDualEarths w, 90) else (w, cooldown)
  else (w, cooldown)

/-- The gesture facts that the dual-mode merge evaluation of
processGestures reads: per-hand detection and the pair-grasp flag
(`bothHands.detected` is the conjunction of the per-hand flags). -/
structure Flags where
  leftDetected : Bool
  rightDetected : Bool
  pairGrasping : Bool
deriving DecidableEq

/-- The merge evaluation in the dual-mode branch of processGestures
(main.js): first the clasped-hands trigger, then the
only-one-hand-detected trigger gated by the cooldown. -/
def mergeTriggerEval (w : World) (cooldown : ℤ) (g : Flags) : World :=
  let w1 := if g.pairGrasping then mergeEarthsStart w else w
  if !(g.leftDetected && g.rightDetected) &&
      (g.leftDetected || g.rightDetected) then
    if cooldown ≤ 0 then mergeEarthsStart w1 else w1
  else w1

/-- Names for the three Earth groups whose particle bodies updateEarth may
integrate. -/
inductive BodyId where
  | mainB
  | leftB
  | rightB
deriving DecidableEq

/-- The Earth groups that exist (their particle bodies are live) in a
given lifecycle state: the main Earth is created at init and never
destroyed; the secondaries exist while their references are non-null. -/
def liveBodies (w : World) : List BodyId :=
  (if w.mainExists then [BodyId.mainB] else []) ++
    (match w.leftE with | some _ => [BodyId.leftB] | none => []) ++
    (match w.rightE with | some _ => [BodyId.rightB] | none => [])

/-- The Earth groups on which one updateEarth call (earth.js) runs
updateParticles, i.e. the per-frame physics integration: the main Earth
only while visible, and the secondaries only while
`isDualMode && !isMerging`. -/
def integratedBodies (w : World) : List BodyId :=
  (if w.mainExists && w.mainVisible then [BodyId.mainB] else []) ++
    (if w.isDualMode && !w.isMerging then
      (match w.leftE with | some _ => [BodyId.leftB] | none => []) ++
        (match w.rightE with | some _ => [BodyId.rightB] | none => [])
    else [])

/-- One particle's (x, y, z) triple; the flat Float32Arrays of earth.js
are modelled stride-3 as lists of these triples. -/
abbrev Vec3 : Type := ℝ × ℝ × ℝ

/-- The per-Earth particle data stored on `group.userData` in earth.js:
live positions, rest positions and velocities of the globe ("earth")
particle body and of the outer particle body, plus the dispersion flag
and scalar.  The fixed particle counts (3500 and 800) only size the
arrays; the update loops are count-generic, so the lists carry the
lengths implicitly. -/
structure EarthData where
  dispersed : Bool
  dispersionAmount : ℝ
  earthPos : List Vec3
  earthBase : List Vec3
  earthVel : List Vec3
  outerPos : List Vec3
  outerBase : List Vec3
  outerVel : List Vec3

/-- The inner loop of disperseParticles for one particle: add the outward
radial unit vector of the current live position, scaled by
`intensity * k`, to the velocity; zero-length positions are skipped. -/
noncomputable def disperseKick (intensity k : ℝ) (p v : Vec3) : Vec3 :=
  let len := Real.sqrt (p.1 ^ 2 + p.2.1 ^ 2 + p.2.2 ^ 2)
  if len > 0 then
    (v.1 + p.1 / len * intensity * k,
     v.2.1 + p.2.1 / len * intensity * k,
     v.2.2 + p.2.2 / len * intensity * k)
  else v

/-- disperseParticles from earth.js: set the dispersed flag, raise the
dispersion amount by `intensity * 0.1` clamped to 1, and kick the
velocities radially (gain 0.025 for the globe body, 0.03 for the outer
body). -/
noncomputable def disperseParticles (e : EarthData) (intensity : ℝ) :
    EarthData :=
  { e with
    dispersed := true
    dispersionAmount := min 1 (e.dispersionAmount + intensity * 0.1)
    earthVel := List.zipWith (disperseKick intensity 0.025) e.earthPos e.earthVel
    outerVel := List.zipWith (disperseKick intensity 0.03) e.outerPos e.outerVel }

/-- The inner loop of convergeParticles for one coordinate triple: move
the live position a fraction `intensity * k` of the remaining distance
toward the rest position. -/
noncomputable def convergeLerp (intensity k : ℝ) (p b : Vec3) : Vec3 :=
  (p.1 + (b.1 - p.1) * intensity * k,
   p.2.1 + (b.2.1 - p.2.1) * intensity * k,
   p.2.2 + (b.2.2 - p.2.2) * intensity * k)

/-- convergeParticles from earth.js: lower the dispersion amount by
`intensity * 0.15` clamped to 0, pull the globe particles toward rest
with fraction `intensity * 0.12` (also decaying their velocities by 0.9)
and the outer particles with fraction `intensity * 0.1`, and clear the
dispersed flag once the amount has reached 0. -/
noncomputable def convergeParticles (e : EarthData) (intensity : ℝ) :
    EarthData :=
  let amount := max 0 (e.dispersionAmount - intensity * 0.15)
  { e with
    dispersionAmount := amount
    earthPos := List.zipWith (convergeLerp intensity 0.12) e.earthPos e.earthBase
    earthVel := e.earthVel.map fun v => (v.1 * 0.9, v.2.1 * 0.9, v.2.2 * 0.9)
    outerPos := List.zipWith (convergeLerp intensity 0.1) e.outerPos e.outerBase
    dispersed := if amount ≤ 0 then false else e.dispersed }

/-- One body's physics step inside updateParticles (earth.js): positions
advance by the current velocities, velocities are damped by the factor
`damp`, and the `hasMotion` flag is OR-accumulated over the loop from the
check `|velocities[i]| > 0.0001` — the source tests only the x component
of each particle, after that particle's damping. -/
noncomputable def bodyStep (damp : ℝ) (pos vel : List Vec3) :
    List Vec3 × List Vec3 × Bool :=
  let newPos := List.zipWith
    (fun (p v : Vec3) => (p.1 + v.1, p.2.1 + v.2.1, p.2.2 + v.2.2)) pos vel
  let newVel := vel.map fun v => (v.1 * damp, v.2.1 * damp, v.2.2 * damp)
  let hasMotion := newVel.foldl
    (fun acc v => acc || decide (|v.1| > 0.0001)) false
  (newPos, newVel, hasMotion)

/-- updateParticles from earth.js restricted to its physics effect: the
globe body integrates with damping 0.97 and the outer body with damping
0.98; the returned flags are the per-body `hasMotion` values that gate
the buffer upload (`needsUpdate`). -/
noncomputable def updateParticles (e : EarthData) :
    EarthData × Bool × Bool :=
  let earth := bodyStep 0.97 e.earthPos e.earthVel
  let outer := bodyStep 0.98 e.outerPos e.outerVel
  ({ e with
     earthPos := earth.1
     earthVel := earth.2.1
     outerPos := outer.1
     outerVel := outer.2.1 },
   earth.2.2, outer.2.2)

/-- The motion predicate as the specification states it: some velocity
component (x, y or z) of some particle exceeds 1e-4 in absolute value.
Modelled from the spec for comparison with the source's check. -/
def anyComponentExceeds (vel : List Vec3) : Prop :=
  ∃ v ∈ vel, |v.1| > 0.0001 ∨ |v.2.1| > 0.0001 ∨ |v.2.2| > 0.0001

/-- The lifecycle state right after initEarth: main Earth visible at
scale 1, no secondaries, single mode. -/
def singleW : World :=
  { mainExists := true, mainVisible := true, mainScale := 1
    leftE := none, rightE := none, isDualMode := false, isMerging := false }

/-- The lifecycle state right after spawnDualEarths fired from the initial
state. -/
def dualW : World :=
  { mainExists := true, mainVisible := false, mainScale := 1
    leftE := some { posX := -1.2, scale := 0.7 }
    rightE := some { posX := 1.2, scale := 0.7 }
    isDualMode := true, isMerging := false }

/-- The lifecycle state while a merge animation is in flight. -/
def mergingW : World :=
  { dualW with isMerging := true }

/-- A one-particle Earth body whose particle moves only along the y axis:
velocity (0, 1, 0). -/
noncomputable def motionBody : EarthData :=
  { dispersed := false, dispersionAmount := 0
    earthPos := [((0 : ℝ), (0 : ℝ), (0 : ℝ))]
    earthBase := [((0 : ℝ), (0 : ℝ), (0 : ℝ))]
    earthVel := [((0 : ℝ), (1 : ℝ), (0 : ℝ))]
    outerPos := [], outerBase := [], outerVel := [] }

/-- An Earth body at rest: live positions equal rest positions and the
dispersion amount is 0. -/
noncomputable def earthRest : EarthData :=
  { dispersed := false, dispersionAmount := 0
    earthPos := [((1 : ℝ), (2 : ℝ), (3 : ℝ))]
    earthBase := [((1 : ℝ), (2 : ℝ), (3 : ℝ))]
    earthVel := [((0 : ℝ), (0 : ℝ), (0 : ℝ))]
    outerPos := [((4 : ℝ), (5 : ℝ), (6 : ℝ))]
    outerBase := [((4 : ℝ), (5 : ℝ), (6 : ℝ))]
    outerVel := [] }

/-- A concrete hand landmark set with every landmark at (1/2, 0, 0); its
palm center has x = 1/2. -/
def lm0 : Landmarks := fun _ => { x := 1/2, y := 0, z := 0 }

/-- A one-sample wave history recorded at time 0 with palm x = 0. -/
def hist0 : List Sample := [{ x := 0, y := 0, time := 0 }]

/-! ## Helper lemmas -/

/-- The buffer component of a detectWave call is exactly the
push-then-evict policy, independent of which branch computes the wave
result. -/
theorem detectWave_snd (lm : Option Landmarks) (h : List Sample) (now : ℚ) :
    (detectWave lm h now).2 = recordSample lm h now := by
  cases lm with
  | none => rfl
  | some l =>
      simp only [detectWave, recordSample]
      split
      · rfl
      · split <;> rfl

/-- Folding a boolean OR of a pointwise test over a list reports true
exactly when the seed was true or some element passes the test. -/
theorem foldl_or_eq_true_iff {α : Type} (f : α → Bool) (l : List α) (b : Bool) :
    l.foldl (fun acc v => acc || f v) b = true ↔
      b = true ∨ ∃ v ∈ l, f v = true := by
  induction l generalizing b with
  | nil => simp
  | cons x xs ih =>
      rw [List.foldl_cons, ih]
      simp only [Bool.or_eq_true, List.mem_cons]
      constructor
      · rintro (⟨hb | hx⟩ | ⟨v, hv, hfv⟩)
        · exact Or.inl hb
        · exact Or.inr ⟨x, Or.inl rfl, hx⟩
        · exact Or.inr ⟨v, Or.inr hv, hfv⟩
      · rintro (hb | ⟨v, rfl | hv, hfv⟩)
        · exact Or.inl (Or.inl hb)
        · exact Or.inl (Or.inr hfv)
        · exact Or.inr ⟨v, hv, hfv⟩

/-- Zipping a list with itself through a function that fixes the
diagonal returns the list unchanged. -/
theorem zipWith_self_eq {α : Type} (f : α → α → α) (hf : ∀ x, f x x = x) :
    ∀ l : List α, List.zipWith f l l = l
  | [] => rfl
  | x :: xs => by
      simp only [List.zipWith, hf x, zipWith_self_eq f hf xs]

/-- Math.sign of a quotient by a positive number is the sign of the
numerator. -/
theorem qsign_div_pos (a c : ℚ) (hc : 0 < c) : qsign (a / c) = qsign a := by
  unfold qsign
  rcases lt_trichotomy a 0 with ha | ha | ha
  · rw [if_neg (by simp [not_lt.2 (le_of_lt (div_neg_of_neg_of_pos ha hc))]),
      if_pos (div_neg_of_neg_of_pos ha hc), if_neg (by simp [not_lt.2 ha.le]),
      if_pos ha]
  · subst ha
    simp
  · rw [if_pos (div_pos ha hc), if_pos ha]

/-! ## Claim C1 -/

/-- C1, counterexample: in dual mode with cooldown 0 and zero hands
detected, the merge evaluation of processGestures does not start a merge,
although the claim says every zero-hands frame with expired cooldown
triggers it. -/
theorem C1_counterexample :
    dualW.isDualMode = true ∧ dualW.isMerging = false ∧
      (mergeTriggerEval dualW 0 ⟨false, false, false⟩).isMerging = false := by
  refine ⟨rfl, rfl, rfl⟩

/-- C1, amended: while the lifecycle state is DUAL, the merge evaluation
of processGestures transitions to MERGING exactly when pair grasping is
true, or when both-hands detection is false but at least one hand is
detected and the cooldown has expired; zero detected hands never trigger
the merge. -/
theorem C1_mergeTrigger_iff (w : World) (c : ℤ) (g : Flags)
    (hd : w.isDualMode = true) (hm : w.isMerging = false) :
    (mergeTriggerEval w c g).isMerging = true ↔
      (g.pairGrasping = true ∨
        ((g.leftDetected && g.rightDetected) = false ∧
          (g.leftDetected || g.rightDetected) = true ∧ c ≤ 0)) := by
  rcases w with ⟨me, mv, ms, le, re, dm, mg⟩
  rcases g with ⟨gl, gr, gp⟩
  simp only at hd hm
  subst hd hm
  by_cases hc : c ≤ 0 <;>
    cases gp <;> cases gl <;> cases gr <;>
      simp [mergeTriggerEval, mergeEarthsStart, hc]

/-- C1, witness: with only the left hand detected, no pair grasp, and
cooldown 0, the DUAL state does start the merge. -/
theorem C1_witness :
    (mergeTriggerEval dualW 0 ⟨true, false, false⟩).isMerging = true :=
  (C1_mergeTrigger_iff dualW 0 ⟨true, false, false⟩ rfl rfl).mpr
    (Or.inr ⟨rfl, rfl, le_refl 0⟩)

/-! ## Claim C6 -/

/-- C6: from SINGLE with cooldown 0 and both hands detected, one spawn
evaluation yields DUAL mode with cooldown 90, the two secondary Earths at
x = ∓1.2 and scale 0.7, and the primary hidden but still existing; a
second spawn evaluation (and a bare spawnDualEarths call) in the
resulting state changes nothing. -/
theorem C6_spawn_spec (w : World) (c : ℤ) (hex : w.mainExists = true)
    (hd : w.isDualMode = false) (hm : w.isMerging = false) (hc : c = 0) :
    getEarthMode (spawnEval w c true).1 = Mode.DUAL ∧
    (spawnEval w c true).2 = 90 ∧
    (spawnEval w c true).1.leftE = some { posX := -1.2, scale := 0.7 } ∧
    (spawnEval w c true).1.rightE = some { posX := 1.2, scale := 0.7 } ∧
    (spawnEval w c true).1.mainVisible = false ∧
    (spawnEval w c true).1.mainExists = true ∧
    spawnEval (spawnEval w c true).1 (spawnEval w c true).2 true
      = ((spawnEval w c true).1, (spawnEval w c true).2) ∧
    spawnDualEarths (spawnEval w c true).1 = (spawnEval w c true).1 := by
  subst hc
  rcases w with ⟨me, mv, ms, le, re, dm, mg⟩
  simp only at hex hd hm
  subst hex hd hm
  simp [spawnEval, spawnDualEarths, getEarthMode]

/-- C6, witness: the spawn specification applied to the initial state. -/
theorem C6_witness :
    getEarthMode (spawnEval singleW 0 true).1 = Mode.DUAL ∧
    (spawnEval singleW 0 true).2 = 90 ∧
    (spawnEval singleW 0 true).1.leftE = some { posX := -1.2, scale := 0.7 } ∧
    (spawnEval singleW 0 true).1.rightE = some { posX := 1.2, scale := 0.7 } ∧
    (spawnEval singleW 0 true).1.mainVisible = false ∧
    (spawnEval singleW 0 true).1.mainExists = true ∧
    spawnEval (spawnEval singleW 0 true).1 (spawnEval singleW 0 true).2 true
      = ((spawnEval singleW 0 true).1, (spawnEval singleW 0 true).2) ∧
    spawnDualEarths (spawnEval singleW 0 true).1 = (spawnEval singleW 0 true).1 :=
  C6_spawn_spec singleW 0 rfl rfl rfl rfl

/-! ## Claim C2 -/

/-- C2, counterexample: at merge progress 0.5 the left secondary Earth
sits at x = -0.15, not at the claimed offset × (1 − (1 − 0.5)³) = -1.05;
ease-out-cubic has already covered 87.5 percent of the way by half
time. -/
theorem C2_counterexample :
    (mergeAnimAt 500 (mergeEarthsStart dualW)).leftE.map Obj.posX
        = some (-0.15) ∧
      (-0.15 : ℚ) ≠ -1.2 * (1 - (1 - 0.5) ^ 3) := by
  constructor
  · norm_num [mergeAnimAt, mergeEarthsStart, dualW]
  · norm_num

/-- C2, amended: starting from DUAL with the secondaries at their spawn
offsets, triggering the merge and advancing its clock to exactly 1000 ms
leaves the lifecycle SINGLE, both secondaries destroyed, and the primary
visible at scale 1; at progress 0.5 each secondary's horizontal position
equals its initial offset times (1 − 0.5)³ — that is, the offset minus
offset × eased, where eased = 1 − (1 − progress)³. -/
theorem C2_merge_spec (w : World) (hex : w.mainExists = true)
    (hd : w.isDualMode = true) (hm : w.isMerging = false)
    (hl : w.leftE = some { posX := -1.2, scale := 0.7 })
    (hr : w.rightE = some { posX := 1.2, scale := 0.7 }) :
    getEarthMode (mergeAnimAt 1000 (mergeEarthsStart w)) = Mode.SINGLE ∧
    (mergeAnimAt 1000 (mergeEarthsStart w)).leftE = none ∧
    (mergeAnimAt 1000 (mergeEarthsStart w)).rightE = none ∧
    (mergeAnimAt 1000 (mergeEarthsStart w)).mainVisible = true ∧
    (mergeAnimAt 1000 (mergeEarthsStart w)).mainScale = 1 ∧
    (mergeAnimAt 500 (mergeEarthsStart w)).leftE.map Obj.posX
        = some (-1.2 * (1 - 0.5) ^ 3) ∧
    (mergeAnimAt 500 (mergeEarthsStart w)).rightE.map Obj.posX
        = some (1.2 * (1 - 0.5) ^ 3) := by
  rcases w with ⟨me, mv, ms, le, re, dm, mg⟩
  simp only at hex hd hm hl hr
  subst hex hd hm hl hr
  norm_num [mergeAnimAt, mergeEarthsStart, getEarthMode]

/-- C2, witness: the merge specification applied to the canonical
post-spawn dual state. -/
theorem C2_witness :
    getEarthMode (mergeAnimAt 1000 (mergeEarthsStart dualW)) = Mode.SINGLE ∧
    (mergeAnimAt 1000 (mergeEarthsStart dualW)).leftE = none ∧
    (mergeAnimAt 1000 (mergeEarthsStart dualW)).rightE = none ∧
    (mergeAnimAt 1000 (mergeEarthsStart dualW)).mainVisible = true ∧
    (mergeAnimAt 1000 (mergeEarthsStart dualW)).mainScale = 1 ∧
    (mergeAnimAt 500 (mergeEarthsStart dualW)).leftE.map Obj.posX
        = some (-1.2 * (1 - 0.5) ^ 3) ∧
    (mergeAnimAt 500 (mergeEarthsStart dualW)).rightE.map Obj.posX
        = some (1.2 * (1 - 0.5) ^ 3) :=
  C2_merge_spec dualW rfl rfl rfl rfl rfl

/-! ## Claim C3 -/

/-- C3, counterexample: while a merge is in flight the lifecycle reports
MERGING, the main and secondary Earth bodies are all still live, yet
updateEarth integrates none of them — contradicting the claim that every
live body is integrated once in every state including MERGING. -/
theorem C3_counterexample :
    getEarthMode mergingW = Mode.MERGING ∧
    BodyId.mainB ∈ liveBodies mergingW ∧
    BodyId.leftB ∈ liveBodies mergingW ∧
    BodyId.rightB ∈ liveBodies mergingW ∧
    integratedBodies mergingW = [] := by
  refine ⟨rfl, ?_, ?_, ?_, rfl⟩ <;> simp [liveBodies, mergingW, dualW]

/-- C3, amended: one updateEarth call integrates the main Earth's bodies
exactly once when the main Earth is visible, and each secondary's bodies
exactly once when it exists while the mode is DUAL (dual and not
merging); in particular nothing is integrated during MERGING, and the
hidden primary is not integrated during DUAL. -/
theorem C3_integrate_spec (w : World) :
    ((integratedBodies w).count BodyId.mainB
        = if w.mainExists && w.mainVisible then 1 else 0) ∧
    ((integratedBodies w).count BodyId.leftB
        = if w.isDualMode && !w.isMerging && w.leftE.isSome then 1 else 0) ∧
    ((integratedBodies w).count BodyId.rightB
        = if w.isDualMode && !w.isMerging && w.rightE.isSome then 1 else 0) := by
  rcases w with ⟨me, mv, ms, le, re, dm, mg⟩
  cases me <;> cases mv <;> cases dm <;> cases mg <;>
    cases le <;> cases re <;>
      simp [integratedBodies, List.count_cons, List.count_nil]

/-! ## Claim C5 -/

/-- C5, counterexample: a particle moving only along y (velocity
(0, 1, 0)) exceeds the epsilon in a velocity component, yet the physics
step reports no motion, because the source checks only each particle's x
component. -/
theorem C5_counterexample :
    anyComponentExceeds motionBody.earthVel ∧
      (updateParticles motionBody).2.1 = false := by
  constructor
  · exact ⟨((0 : ℝ), (1 : ℝ), (0 : ℝ)), by simp [motionBody],
      Or.inr (Or.inl (by norm_num))⟩
  · simp only [updateParticles, bodyStep, motionBody, List.map_cons,
      List.map_nil, List.foldl_cons, List.foldl_nil, Bool.false_or]
    rw [decide_eq_false_iff_not]
    norm_num

/-- C5, amended: the physics step reports motion for a body if and only
if some particle's post-damping x velocity component exceeds 1e-4 in
absolute value — it checks only x, never y or z, for both the globe body
(damping 0.97) and the outer body (damping 0.98). -/
theorem C5_hasMotion_iff (e : EarthData) :
    ((updateParticles e).2.1 = true ↔
      ∃ v ∈ e.earthVel, |v.1 * (0.97 : ℝ)| > 0.0001) ∧
    ((updateParticles e).2.2 = true ↔
      ∃ v ∈ e.outerVel, |v.1 * (0.98 : ℝ)| > 0.0001) := by
  have key : ∀ (damp : ℝ) (pos l : List Vec3),
      ((bodyStep damp pos l).2.2 = true ↔ ∃ v ∈ l, |v.1 * damp| > 0.0001) := by
    intro damp pos l
    simp only [bodyStep, foldl_or_eq_true_iff]
    constructor
    · rintro (h | ⟨v, hv, hp⟩)
      · simp at h
      · rw [List.mem_map] at hv
        obtain ⟨w, hw, rfl⟩ := hv
        exact ⟨w, hw, by simpa using hp⟩
    · rintro ⟨w, hw, hp⟩
      refine Or.inr ⟨(w.1 * damp, w.2.1 * damp, w.2.2 * damp),
        List.mem_map.mpr ⟨w, hw, rfl⟩, by simpa using hp⟩
  exact ⟨key 0.97 e.earthPos e.earthVel, key 0.98 e.outerPos e.outerVel⟩

/-! ## Claim C9 -/

/-- C9: for intensity in (0, 1] and a dispersion amount in [0, 1], both
disperse and converge keep the dispersion amount inside [0, 1]; the
dispersed flag clears as soon as the amount reaches 0 after a converge;
and converging a body already at its rest positions with amount 0 leaves
both particle sets' positions unchanged and the amount at 0. -/
theorem C9_dispersion_invariant (e : EarthData) (i : ℝ)
    (hi0 : 0 < i) (hi1 : i ≤ 1)
    (h0 : 0 ≤ e.dispersionAmount) (h1 : e.dispersionAmount ≤ 1) :
    (0 ≤ (disperseParticles e i).dispersionAmount ∧
      (disperseParticles e i).dispersionAmount ≤ 1) ∧
    (0 ≤ (convergeParticles e i).dispersionAmount ∧
      (convergeParticles e i).dispersionAmount ≤ 1) ∧
    ((convergeParticles e i).dispersionAmount = 0 →
      (convergeParticles e i).dispersed = false) ∧
    (e.earthPos = e.earthBase → e.outerPos = e.outerBase →
      e.dispersionAmount = 0 →
      (convergeParticles e i).earthPos = e.earthPos ∧
      (convergeParticles e i).outerPos = e.outerPos ∧
      (convergeParticles e i).dispersionAmount = 0) := by
  have hi : (0 : ℝ) ≤ i := le_of_lt hi0
  refine ⟨⟨?_, ?_⟩, ⟨?_, ?_⟩, ?_, ?_⟩
  · simp only [disperseParticles]
    exact le_min (by norm_num) (by nlinarith)
  · simp only [disperseParticles]
    exact min_le_left _ _
  · simp only [convergeParticles]
    exact le_max_left _ _
  · simp only [convergeParticles]
    exact max_le (by norm_num) (by nlinarith)
  · intro hz
    simp only [convergeParticles] at hz ⊢
    rw [if_pos (le_of_eq hz)]
  · intro hep hop hz
    refine ⟨?_, ?_, ?_⟩
    · simp only [convergeParticles]
      rw [hep]
      exact zipWith_self_eq _ (fun x => by simp [convergeLerp]) _
    · simp only [convergeParticles]
      rw [hop]
      exact zipWith_self_eq _ (fun x => by simp [convergeLerp]) _
    · simp only [convergeParticles, hz]
      rw [max_eq_left (by nlinarith)]

/-- C9, witness: the invariant applied to a concrete body at rest with
intensity 1. -/
theorem C9_witness :
    (convergeParticles earthRest 1).earthPos = earthRest.earthPos ∧
    (convergeParticles earthRest 1).outerPos = earthRest.outerPos ∧
    (convergeParticles earthRest 1).dispersionAmount = 0 :=
  (C9_dispersion_invariant earthRest 1 (by norm_num) le_rfl
      (by norm_num [earthRest]) (by norm_num [earthRest])).2.2.2
    rfl rfl rfl

/-! ## Claim C4 -/

/-- C4: the gesture-state computation is a pure function of the two
landmark sets, the previous hands distance, the history-buffer contents
and the frame timestamp — equal inputs give equal outputs — and its only
state effect is the buffer mutation: the returned buffers are exactly the
push-then-evict of the palm samples, independent of the previous
distance. -/
theorem C4_gestures_pure (l₁ l₂ r₁ r₂ : Option Landmarks) (p₁ p₂ : Option ℝ)
    (b₁ b₂ : Buffers) (t₁ t₂ : ℚ)
    (hl : l₁ = l₂) (hr : r₁ = r₂) (hp : p₁ = p₂) (hb : b₁ = b₂)
    (ht : t₁ = t₂) :
    getGestureState l₁ r₁ p₁ b₁ t₁ = getGestureState l₂ r₂ p₂ b₂ t₂ ∧
    (getGestureState l₁ r₁ p₁ b₁ t₁).2 =
      { left := recordSample l₁ b₁.left t₁
        right := recordSample r₁ b₁.right t₁ } := by
  subst hl hr hp hb ht
  refine ⟨rfl, ?_⟩
  show Buffers.mk (detectWave l₁ b₁.left t₁).2 (detectWave r₁ b₁.right t₁).2 = _
  rw [detectWave_snd, detectWave_snd]

/-- C4, witness: the purity statement instantiated at a concrete empty
frame. -/
theorem C4_witness :
    getGestureState none none none ⟨[], []⟩ 0
        = getGestureState none none none ⟨[], []⟩ 0 ∧
    (getGestureState none none none ⟨[], []⟩ 0).2 =
      { left := recordSample none [] 0, right := recordSample none [] 0 } :=
  C4_gestures_pure none none none none none none ⟨[], []⟩ ⟨[], []⟩ 0 0
    rfl rfl rfl rfl rfl

/-! ## Claim C7 -/

/-- C7: for a present hand, detectWave records the palm sample and then
estimates from the oldest and newest retained samples: with fewer than
two samples, or with less than 10 ms between them, the result is
zero/not-waving; otherwise the velocity is |newest.x − oldest.x| divided
by the elapsed seconds, the direction is the sign of newest.x − oldest.x,
and isWaving holds exactly when the velocity exceeds 0.02. -/
theorem C7_detectWave_spec (lm : Landmarks) (hist : List Sample) (now : ℚ) :
    ((detectWave (some lm) hist now).2 = recordSample (some lm) hist now) ∧
    ((recordSample (some lm) hist now).length < 2 →
      (detectWave (some lm) hist now).1
        = { isWaving := false, velocity := 0, direction := 0 }) ∧
    (2 ≤ (recordSample (some lm) hist now).length →
      ((recordSample (some lm) hist now).getLastI.time
            - (recordSample (some lm) hist now).headI.time < 10 →
        (detectWave (some lm) hist now).1
          = { isWaving := false, velocity := 0, direction := 0 }) ∧
      (10 ≤ (recordSample (some lm) hist now).getLastI.time
            - (recordSample (some lm) hist now).headI.time →
        (detectWave (some lm) hist now).1.velocity
            = |(recordSample (some lm) hist now).getLastI.x
                - (recordSample (some lm) hist now).headI.x|
              / (((recordSample (some lm) hist now).getLastI.time
                  - (recordSample (some lm) hist now).headI.time) / 1000) ∧
        (detectWave (some lm) hist now).1.direction
            = qsign ((recordSample (some lm) hist now).getLastI.x
                - (recordSample (some lm) hist now).headI.x) ∧
        ((detectWave (some lm) hist now).1.isWaving = true ↔
          (detectWave (some lm) hist now).1.velocity > 0.02))) := by
  set h : List Sample := recordSample (some lm) hist now with hh
  have hw : detectWave (some lm) hist now =
      (if h.length < 2 then
        ({ isWaving := false, velocity := 0, direction := 0 }, h)
       else if (h.getLastI.time - h.headI.time) / 1000 < 0.01 then
        ({ isWaving := false, velocity := 0, direction := 0 }, h)
       else
        ({ isWaving := decide (|(h.getLastI.x - h.headI.x)
              / ((h.getLastI.time - h.headI.time) / 1000)| > 0.02)
           velocity := |(h.getLastI.x - h.headI.x)
              / ((h.getLastI.time - h.headI.time) / 1000)|
           direction := qsign ((h.getLastI.x - h.headI.x)
              / ((h.getLastI.time - h.headI.time) / 1000)) }, h)) := rfl
  refine ⟨detectWave_snd _ _ _, ?_, ?_⟩
  · intro hlen
    rw [hw, if_pos hlen]
  · intro hlen
    have hlen' : ¬h.length < 2 := by omega
    constructor
    · intro hT
      have hfast : (h.getLastI.time - h.headI.time) / 1000 < 0.01 := by
        rw [div_lt_iff₀ (by norm_num : (0 : ℚ) < 1000)]
        calc h.getLastI.time - h.headI.time < 10 := hT
          _ = 0.01 * 1000 := by norm_num
      rw [hw, if_neg hlen', if_pos hfast]
    · intro hT
      have hTpos : (0 : ℚ) < (h.getLastI.time - h.headI.time) / 1000 :=
        div_pos (by linarith) (by norm_num)
      have hslow : ¬(h.getLastI.time - h.headI.time) / 1000 < 0.01 := by
        rw [not_lt, le_div_iff₀ (by norm_num : (0 : ℚ) < 1000)]
        calc (0.01 : ℚ) * 1000 = 10 := by norm_num
          _ ≤ h.getLastI.time - h.headI.time := hT
      rw [hw, if_neg hlen', if_neg hslow]
      refine ⟨?_, qsign_div_pos _ _ hTpos, ?_⟩
      · show |(h.getLastI.x - h.headI.x)
            / ((h.getLastI.time - h.headI.time) / 1000)| = _
        rw [abs_div, abs_of_pos hTpos]
      · exact ⟨of_decide_eq_true, fun hq => decide_eq_true hq⟩

/-- C7, witness: a two-sample history spanning one second with a palm
displacement of 1/2 reports waving with velocity 1/2. -/
theorem C7_witness : (detectWave (some lm0) hist0 1000).1.isWaving = true := by
  have hrec : recordSample (some lm0) hist0 1000
      = [{ x := 0, y := 0, time := 0 }, { x := 1/2, y := 0, time := 1000 }] := by
    norm_num [recordSample, hist0, lm0, getPalmCenter, trimHistory]
  obtain ⟨hsnd, hshort, hlong⟩ := C7_detectWave_spec lm0 hist0 1000
  rw [hrec] at hlong
  obtain ⟨hfast, hok⟩ := hlong (by norm_num)
  obtain ⟨hv, hd, hiff⟩ := hok (by norm_num [List.getLastI, List.headI])
  apply hiff.mpr
  rw [hv]
  norm_num [List.getLastI, List.headI]
  rw [abs_of_pos (show (0 : ℚ) < 1 / 2 by norm_num)]
  norm_num

/-! ## Claim C8 -/

/-- C8: for two present landmark sets, pair grasping holds exactly when
both individual hands are grasping and the 2D palm-center distance is
below 0.12 — this settles all four combinations of the individual
grasping flags at once. -/
theorem C8_detectGrasp_iff (l r : Landmarks) :
    detectGrasp (some l) (some r) ↔
      (isGrasping (some l) ∧ isGrasping (some r) ∧
        distance2D (getPalmCenter l) (getPalmCenter r) < 0.12) := by
  simp only [detectGrasp, isSameLocation]
  tauto

/-! ## Claim C10 -/

/-- C10: a previous hands distance of exactly 0 is coerced to null by the
`|| null` fallback, so such a frame reports spreading and converging both
false with zero deltas; and the pair distance is reported as 0 whenever
either hand is absent, which is how a 0 gets stored in the first
place. -/
theorem C10_zero_prev_distance (l r : Option Landmarks) (b : Buffers)
    (t : ℚ) :
    ¬(getGestureState l r (some 0) b t).1.bothHands.spreading ∧
    ¬(getGestureState l r (some 0) b t).1.bothHands.converging ∧
    (getGestureState l r (some 0) b t).1.spreadDelta = 0 ∧
    (getGestureState l r (some 0) b t).1.convergeDelta = 0 ∧
    getHandsDistance none r = 0 ∧
    getHandsDistance l none = 0 := by
  cases l <;> cases r <;>
    simp [getGestureState, detectSpread, detectConverge, getHandsDistance]

end HandsStacking
